import Mathlib

set_option linter.unnecessarySeqFocus false

/-
Shallow embedding of the authenticated API access layer of the vergo-app
repository (src/vergo-app/src/api/auth.ts), together with a model of the
Token-Aware Transport described in the specification (its source file
src/api/client.ts is not part of the sources; only its import surface is
visible from auth.ts and index.ts).

Conventions of the embedding:
- `expo-secure-store` is modelled as a record of four optional entries,
  one per STORAGE_KEYS key used by the code (access token, refresh token,
  user type, user data).  `getItemAsync` returns the entry, `setItemAsync`
  overwrites it; per the specification a read never throws.
- JavaScript truthiness on a `string | null` value (`if (token && ...)`)
  is `truthy`: null/undefined and the empty string are falsy.
- `JSON.stringify` / `JSON.parse` are platform functions, modelled
  algebraically by the `StoredVal` type: `.userJson u` is a text that
  `JSON.parse` accepts and that the code casts to a user record `u`
  (the code performs no validation beyond parse success), while `.str s`
  is a plain string whose text `JSON.parse` rejects by throwing.
- Each operation of `authApi` is a state transformer on the store;
  fallible operations return `Except String` carrying the thrown
  `Error` message.  Network calls are parameters: the server response
  (or a transport-level rejection) is an input to the operation.
-/

namespace Vergo

/-- Account kinds: the `UserType` union type `'jobseeker' | 'client'` of the source. -/
inductive UserType where
  | jobseeker
  | client
deriving DecidableEq, Repr

/-- The string literal the source stores and compares for each account kind. -/
def UserType.asString : UserType → String
  | .jobseeker => "jobseeker"
  | .client => "client"

/-- Opaque server-side user record (`JobSeeker | ClientCompany`); the fields shown
are the ones the specification scenarios mention. -/
structure User where
  id : Nat
  email : String
deriving DecidableEq, Repr

/-- A value held in one Secure Credential Store entry.  `.str s` is a plain
string whose text `JSON.parse` rejects (tokens, the user-type tag, corrupt
blobs); `.userJson u` is a text `JSON.parse` accepts, denoting the user
record `u` the code obtains from the unchecked cast after parsing. -/
inductive StoredVal where
  | str (s : String)
  | userJson (u : User)
deriving DecidableEq, Repr

/-- The Secure Credential Store: the four independently-addressed entries under
STORAGE_KEYS (access token, refresh token, user-type tag, serialized user data).
`none` is an absent entry. -/
structure Store where
  accessToken : Option StoredVal
  refreshToken : Option StoredVal
  userType : Option StoredVal
  userData : Option StoredVal
deriving DecidableEq, Repr

/-- JavaScript truthiness of a store read (`string | null`): absent is falsy,
the empty string is falsy, every other text is truthy (serialized user objects
are never the empty text). -/
def truthy : Option StoredVal → Bool
  | none => false
  | some (.str s) => !s.isEmpty
  | some (.userJson _) => true

/-- JavaScript truthiness of an optional response field of string type. -/
def strTruthy : Option String → Bool
  | none => false
  | some s => !s.isEmpty

/-- JavaScript `a || b` on an optional string `a`: the default is used when `a`
is absent or empty. -/
def jsOrElse (a : Option String) (b : String) : String :=
  match a with
  | some s => if s.isEmpty then b else s
  | none => b

/-- The backend response envelope `BackendAuthResponse` of auth.ts. -/
structure BackendAuthResponse where
  ok : Bool
  error : Option String
  code : Option String
  user : Option User
  token : Option String
  refreshToken : Option String
deriving DecidableEq, Repr

/-- The `LoginRequest` payload: email, password and account kind. -/
structure LoginRequest where
  email : String
  password : String
  userType : UserType
deriving DecidableEq, Repr

/-- The `LoginResponse` session value assembled and returned by
login/registration. -/
structure LoginResponse where
  token : String
  refreshToken : String
  user : User
  userType : UserType
deriving DecidableEq, Repr

/-- Modelled from the spec: `setAuthTokens` of the missing src/api/client.ts
persists the access token and the refresh token into their two Credential
Store entries (spec section 6, persisted local keys). -/
def setAuthTokens (token refreshToken : String) (st : Store) : Store :=
  { st with accessToken := some (.str token), refreshToken := some (.str refreshToken) }

/-- Modelled from the spec: `clearAuthTokens` of the missing src/api/client.ts
unconditionally clears the entire Credential Record, leaving all four entries
absent (spec sections 4.2 step 4 and 4.3 logout, section 8 logout property). -/
def clearAuthTokens (_st : Store) : Store :=
  { accessToken := none, refreshToken := none, userType := none, userData := none }

/-- Result of `authApi.checkAuth`: the `isAuthenticated`/`userType`/`user`
record it resolves with.  The `userType` field carries the raw stored value,
since the source casts the stored string without validating it. -/
structure AuthStatus where
  isAuthenticated : Bool
  userType : Option StoredVal
  user : Option User
deriving DecidableEq, Repr

namespace authApi

/-- `authApi.login` (auth.ts lines 33-60).  `net` is the outcome of
`apiClient.post` on the account-kind-specific login endpoint: `.error e` is a
transport rejection (propagated, no store writes), `.ok resp` the parsed
response body.  On `ok && token && user` it stores both tokens (refresh
defaulting to the access token via `||`), the user-type tag and the serialized
user, and returns the assembled session; otherwise it throws
`response.data.error || 'Login failed'`. -/
def login (credentials : LoginRequest) (net : Except String BackendAuthResponse)
    (st : Store) : Except String LoginResponse × Store :=
  match net with
  | .error e => (.error e, st)
  | .ok resp =>
    match resp.ok, resp.token, resp.user with
    | true, some token, some user =>
      if token.isEmpty then
        (.error (jsOrElse resp.error "Login failed"), st)
      else
        let refresh := jsOrElse resp.refreshToken token
        let st1 := setAuthTokens token refresh st
        let st2 := { st1 with userType := some (.str credentials.userType.asString) }
        let st3 := { st2 with userData := some (.userJson user) }
        (.ok { token := token, refreshToken := refresh, user := user,
               userType := credentials.userType }, st3)
    | _, _, _ => (.error (jsOrElse resp.error "Login failed"), st)

/-- `authApi.registerJobSeeker` (auth.ts lines 65-84): identical contract to
login against the job-seeker registration endpoint, tagging the session with
the fixed kind `jobseeker` and throwing `error || 'Registration failed'`. -/
def registerJobSeeker (net : Except String BackendAuthResponse)
    (st : Store) : Except String LoginResponse × Store :=
  match net with
  | .error e => (.error e, st)
  | .ok resp =>
    match resp.ok, resp.token, resp.user with
    | true, some token, some user =>
      if token.isEmpty then
        (.error (jsOrElse resp.error "Registration failed"), st)
      else
        let refresh := jsOrElse resp.refreshToken token
        let st1 := setAuthTokens token refresh st
        let st2 := { st1 with userType := some (.str UserType.jobseeker.asString) }
        let st3 := { st2 with userData := some (.userJson user) }
        (.ok { token := token, refreshToken := refresh, user := user,
               userType := UserType.jobseeker }, st3)
    | _, _, _ => (.error (jsOrElse resp.error "Registration failed"), st)

/-- `authApi.registerClient` (auth.ts lines 89-108): as `registerJobSeeker`
with the fixed kind `client`. -/
def registerClient (net : Except String BackendAuthResponse)
    (st : Store) : Except String LoginResponse × Store :=
  match net with
  | .error e => (.error e, st)
  | .ok resp =>
    match resp.ok, resp.token, resp.user with
    | true, some token, some user =>
      if token.isEmpty then
        (.error (jsOrElse resp.error "Registration failed"), st)
      else
        let refresh := jsOrElse resp.refreshToken token
        let st1 := setAuthTokens token refresh st
        let st2 := { st1 with userType := some (.str UserType.client.asString) }
        let st3 := { st2 with userData := some (.userJson user) }
        (.ok { token := token, refreshToken := refresh, user := user,
               userType := UserType.client }, st3)
    | _, _, _ => (.error (jsOrElse resp.error "Registration failed"), st)

/-- `authApi.logout` (auth.ts lines 113-121): the remote logout call sits in a
try/catch whose catch only warns, so its outcome `remoteOk` is ignored; then
`clearAuthTokens` runs unconditionally and the function returns normally. -/
def logout (_remoteOk : Bool) (st : Store) : Store :=
  clearAuthTokens st

/-- `authApi.getCurrentUser` (auth.ts lines 126-135): on `ok && user` returns
the response user; otherwise throws `error || 'Failed to get user'`.  It
performs no store access, so the store passes through unchanged. -/
def getCurrentUser (_userType : UserType) (resp : BackendAuthResponse)
    (st : Store) : Except String User × Store :=
  match resp.ok, resp.user with
  | true, some u => (.ok u, st)
  | _, _ => (.error (jsOrElse resp.error "Failed to get user"), st)

/-- `authApi.updateJobSeekerProfile` (auth.ts lines 151-160): on `ok && user`
overwrites the stored user data with the serialized response user and returns
it; otherwise throws `error || 'Failed to update profile'` with no write. -/
def updateJobSeekerProfile (resp : BackendAuthResponse)
    (st : Store) : Except String User × Store :=
  match resp.ok, resp.user with
  | true, some u => (.ok u, { st with userData := some (.userJson u) })
  | _, _ => (.error (jsOrElse resp.error "Failed to update profile"), st)

/-- `authApi.updateClientProfile` (auth.ts lines 165-174): same body as the
job-seeker variant against the client endpoint. -/
def updateClientProfile (resp : BackendAuthResponse)
    (st : Store) : Except String User × Store :=
  match resp.ok, resp.user with
  | true, some u => (.ok u, { st with userData := some (.userJson u) })
  | _, _ => (.error (jsOrElse resp.error "Failed to update profile"), st)

/-- `authApi.checkAuth` (auth.ts lines 179-195): reads the access token, the
user-type tag and the user data (and nothing else: the refresh token entry is
never read); if all three are truthy it parses the user data — a parse throw
lands in the catch, which resolves unauthenticated — and resolves
authenticated with the raw stored user type and the parsed user; on any falsy
read it resolves unauthenticated.  Store reads never throw, so the function
never rejects. -/
def checkAuth (st : Store) : AuthStatus :=
  if truthy st.accessToken && truthy st.userType && truthy st.userData then
    match st.userData with
    | some (.userJson u) =>
      { isAuthenticated := true, userType := st.userType, user := some u }
    | some (.str _) =>
      { isAuthenticated := false, userType := none, user := none }
    | none =>
      { isAuthenticated := false, userType := none, user := none }
  else
    { isAuthenticated := false, userType := none, user := none }

end authApi

/-- Event emitted by the Token-Aware Transport while handling one outbound
request: an attempt of the original request carrying the attached bearer
credential (if any), or one call to the refresh endpoint. -/
inductive TEvent where
  | attempt (bearer : Option String)
  | refreshCall
deriving DecidableEq, Repr

/-- Whether a transport event is a refresh-endpoint call. -/
def TEvent.isRefresh : TEvent → Bool
  | .refreshCall => true
  | .attempt _ => false

/-- How many refresh-endpoint calls a transport trace contains. -/
def refreshCount (evs : List TEvent) : Nat :=
  (evs.filter TEvent.isRefresh).length

/-- The bearer credentials of the request attempts in a transport trace, in
order. -/
def attemptBearers (evs : List TEvent) : List (Option String) :=
  evs.filterMap fun e =>
    match e with
    | .attempt b => some b
    | .refreshCall => none

/-- The server side of one outbound request, as the transport observes it:
the HTTP status of the first attempt, the refresh outcome were the refresh
endpoint called (`some newToken` on a 2xx refresh carrying a new access token,
`none` on any refresh failure), and the HTTP status of the retried attempt
were one issued. -/
structure ServerBehavior where
  firstStatus : Nat
  refreshOutcome : Option String
  retryStatus : Nat
deriving DecidableEq, Repr

/-- What the Token-Aware Transport returns to its caller for one request:
an HTTP response with the given status, or the AuthExpired error raised after
a failed refresh cycle. -/
inductive SendResult where
  | http (status : Nat)
  | authExpired
deriving DecidableEq, Repr

/-- The bearer credential the transport attaches: the stored access token
string when one exists, else none (requests before any session exists proceed
without a credential). -/
def bearerOf : Option StoredVal → Option String
  | some (.str s) => some s
  | some (.userJson _) => none
  | none => none

/-- Modelled from the spec: the Token-Aware Transport of the missing
src/api/client.ts (spec section 4.2).  It attaches the stored access token as
bearer; on a 401 for a credentialed request it calls the refresh endpoint
exactly once; on refresh success it persists the new access token and
re-issues the original request once with the new token, returning that second
response as final; on refresh failure it clears the Credential Record and
returns AuthExpired; a 401 without a credential, and every non-401 outcome,
is passed through with no refresh.  The result carries the final store and
the trace of events. -/
def sendRequest (st : Store) (sv : ServerBehavior) :
    SendResult × Store × List TEvent :=
  let bearer := bearerOf st.accessToken
  if sv.firstStatus == 401 && bearer.isSome then
    match sv.refreshOutcome with
    | some newToken =>
      let st2 := { st with accessToken := some (.str newToken) }
      (.http sv.retryStatus, st2,
        [.attempt bearer, .refreshCall, .attempt (some newToken)])
    | none =>
      (.authExpired, clearAuthTokens st, [.attempt bearer, .refreshCall])
  else
    (.http sv.firstStatus, st, [.attempt bearer])

/-- The empty Credential Store: all four entries absent. -/
def stEmpty : Store :=
  { accessToken := none, refreshToken := none, userType := none, userData := none }

/-- The user record of the login scenario of the specification. -/
def uAB : User := { id := 1, email := "a@b.com" }

/-- The login request of the scenario of the specification. -/
def scenarioReq : LoginRequest :=
  { email := "a@b.com", password := "x", userType := .jobseeker }

/-- The login response of the scenario of the specification:
ok with token T1, refresh token R1 and user id 1. -/
def scenarioResp : BackendAuthResponse :=
  { ok := true, error := none, code := none, user := some uAB,
    token := some "T1", refreshToken := some "R1" }

/-- A store holding a full session, used as a concrete transport state. -/
def tSt : Store :=
  { accessToken := some (.str "T1"), refreshToken := some (.str "R1"),
    userType := some (.str "jobseeker"), userData := some (.userJson uAB) }

/-- A server behavior answering 401 first, refreshing successfully to T2, and
answering 401 again on the retry. -/
def tSv : ServerBehavior :=
  { firstStatus := 401, refreshOutcome := some "T2", retryStatus := 401 }

/-- A store in which exactly three of the four entries are present: only the
refresh token entry is absent. -/
def c4Store : Store :=
  { accessToken := some (.str "T1"), refreshToken := none,
    userType := some (.str "jobseeker"), userData := some (.userJson uAB) }

/-- A login response rejecting the credentials: ok false with a server
error message. -/
def respBadPw : BackendAuthResponse :=
  { ok := false, error := some "Invalid email or password", code := none,
    user := none, token := none, refreshToken := none }

/-- A profile-update response rejecting the write with the message of the
specification scenario. -/
def respStale : BackendAuthResponse :=
  { ok := false, error := some "stale data", code := none,
    user := none, token := none, refreshToken := none }

/-- A fresher user record returned by a profile update. -/
def u2 : User := { id := 2, email := "c@d.com" }

/-- A successful profile-update response carrying the fresher user record. -/
def respOkU2 : BackendAuthResponse :=
  { ok := true, error := none, code := none, user := some u2,
    token := none, refreshToken := none }

/-- A successful login response in which the server omits a distinct refresh
token. -/
def respNoRefresh : BackendAuthResponse :=
  { ok := true, error := none, code := none, user := some uAB,
    token := some "T1", refreshToken := none }

/- Helper lemmas characterizing the operations. -/

theorem jsOrElse_none (b : String) : jsOrElse none b = b := rfl

theorem jsOrElse_empty (b : String) : jsOrElse (some "") b = b := rfl

theorem jsOrElse_some (r b : String) (h : r.isEmpty = false) :
    jsOrElse (some r) b = r := by
  simp [jsOrElse, h]

theorem login_ok (c : LoginRequest) (resp : BackendAuthResponse) (st : Store)
    (t : String) (u : User) (hok : resp.ok = true) (ht : resp.token = some t)
    (hne : t.isEmpty = false) (hu : resp.user = some u) :
    authApi.login c (.ok resp) st =
      (.ok { token := t, refreshToken := jsOrElse resp.refreshToken t,
             user := u, userType := c.userType },
       { accessToken := some (.str t),
         refreshToken := some (.str (jsOrElse resp.refreshToken t)),
         userType := some (.str c.userType.asString),
         userData := some (.userJson u) }) := by
  simp [authApi.login, hok, ht, hu, hne, setAuthTokens]

theorem registerJobSeeker_ok (resp : BackendAuthResponse) (st : Store)
    (t : String) (u : User) (hok : resp.ok = true) (ht : resp.token = some t)
    (hne : t.isEmpty = false) (hu : resp.user = some u) :
    authApi.registerJobSeeker (.ok resp) st =
      (.ok { token := t, refreshToken := jsOrElse resp.refreshToken t,
             user := u, userType := .jobseeker },
       { accessToken := some (.str t),
         refreshToken := some (.str (jsOrElse resp.refreshToken t)),
         userType := some (.str UserType.jobseeker.asString),
         userData := some (.userJson u) }) := by
  simp [authApi.registerJobSeeker, hok, ht, hu, hne, setAuthTokens]

theorem registerClient_ok (resp : BackendAuthResponse) (st : Store)
    (t : String) (u : User) (hok : resp.ok = true) (ht : resp.token = some t)
    (hne : t.isEmpty = false) (hu : resp.user = some u) :
    authApi.registerClient (.ok resp) st =
      (.ok { token := t, refreshToken := jsOrElse resp.refreshToken t,
             user := u, userType := .client },
       { accessToken := some (.str t),
         refreshToken := some (.str (jsOrElse resp.refreshToken t)),
         userType := some (.str UserType.client.asString),
         userData := some (.userJson u) }) := by
  simp [authApi.registerClient, hok, ht, hu, hne, setAuthTokens]

theorem login_fail (c : LoginRequest) (resp : BackendAuthResponse) (st : Store)
    (h : resp.ok = false ∨ resp.token = none ∨ resp.token = some "" ∨
         resp.user = none) :
    authApi.login c (.ok resp) st =
      (.error (jsOrElse resp.error "Login failed"), st) := by
  rcases h with h | h | h | h
  · rcases ht : resp.token with _ | t <;> rcases hu : resp.user with _ | u <;>
      simp [authApi.login, h, ht, hu]
  · rcases hok : resp.ok with _ | _ <;> rcases hu : resp.user with _ | u <;>
      simp [authApi.login, h, hok, hu]
  · rcases hok : resp.ok with _ | _ <;> rcases hu : resp.user with _ | u <;>
      simp [authApi.login, h, hok, hu] <;> rfl
  · rcases hok : resp.ok with _ | _ <;> rcases ht : resp.token with _ | t <;>
      simp [authApi.login, h, hok, ht]

theorem registerJobSeeker_fail (resp : BackendAuthResponse) (st : Store)
    (h : resp.ok = false ∨ resp.token = none ∨ resp.token = some "" ∨
         resp.user = none) :
    authApi.registerJobSeeker (.ok resp) st =
      (.error (jsOrElse resp.error "Registration failed"), st) := by
  rcases h with h | h | h | h
  · rcases ht : resp.token with _ | t <;> rcases hu : resp.user with _ | u <;>
      simp [authApi.registerJobSeeker, h, ht, hu]
  · rcases hok : resp.ok with _ | _ <;> rcases hu : resp.user with _ | u <;>
      simp [authApi.registerJobSeeker, h, hok, hu]
  · rcases hok : resp.ok with _ | _ <;> rcases hu : resp.user with _ | u <;>
      simp [authApi.registerJobSeeker, h, hok, hu] <;> rfl
  · rcases hok : resp.ok with _ | _ <;> rcases ht : resp.token with _ | t <;>
      simp [authApi.registerJobSeeker, h, hok, ht]

theorem registerClient_fail (resp : BackendAuthResponse) (st : Store)
    (h : resp.ok = false ∨ resp.token = none ∨ resp.token = some "" ∨
         resp.user = none) :
    authApi.registerClient (.ok resp) st =
      (.error (jsOrElse resp.error "Registration failed"), st) := by
  rcases h with h | h | h | h
  · rcases ht : resp.token with _ | t <;> rcases hu : resp.user with _ | u <;>
      simp [authApi.registerClient, h, ht, hu]
  · rcases hok : resp.ok with _ | _ <;> rcases hu : resp.user with _ | u <;>
      simp [authApi.registerClient, h, hok, hu]
  · rcases hok : resp.ok with _ | _ <;> rcases hu : resp.user with _ | u <;>
      simp [authApi.registerClient, h, hok, hu] <;> rfl
  · rcases hok : resp.ok with _ | _ <;> rcases ht : resp.token with _ | t <;>
      simp [authApi.registerClient, h, hok, ht]

theorem truthy_userType_string (ut : UserType) :
    truthy (some (.str ut.asString)) = true := by
  cases ut <;> rfl

theorem sendRequest_cred401_refreshOk (st : Store) (sv : ServerBehavior)
    (b nt : String) (h401 : sv.firstStatus = 401)
    (hb : bearerOf st.accessToken = some b) (hro : sv.refreshOutcome = some nt) :
    sendRequest st sv =
      (.http sv.retryStatus, { st with accessToken := some (.str nt) },
       [.attempt (some b), .refreshCall, .attempt (some nt)]) := by
  simp [sendRequest, h401, hb, hro]

theorem sendRequest_cred401_refreshFail (st : Store) (sv : ServerBehavior)
    (b : String) (h401 : sv.firstStatus = 401)
    (hb : bearerOf st.accessToken = some b) (hro : sv.refreshOutcome = none) :
    sendRequest st sv =
      (.authExpired, clearAuthTokens st, [.attempt (some b), .refreshCall]) := by
  simp [sendRequest, h401, hb, hro]

theorem sendRequest_nocred (st : Store) (sv : ServerBehavior)
    (hb : bearerOf st.accessToken = none) :
    sendRequest st sv = (.http sv.firstStatus, st, [.attempt none]) := by
  simp [sendRequest, hb]

theorem sendRequest_non401 (st : Store) (sv : ServerBehavior)
    (h : sv.firstStatus ≠ 401) :
    sendRequest st sv =
      (.http sv.firstStatus, st, [.attempt (bearerOf st.accessToken)]) := by
  simp [sendRequest, h]

/-- Claim C1: for a credentialed request answered 401 whose refresh call
succeeds, the Transport calls the refresh endpoint exactly once, retries the
original request exactly once with the new token, and returns the second
outcome to the caller as final; in every credentialed-401 case the refresh
endpoint is called exactly once (also when the retry itself comes back 401,
since the trace is fixed before the retry status is known), and a request
carrying no credential never triggers a refresh. -/
theorem transport_single_refresh_retry (st : Store) (sv : ServerBehavior) :
    (sv.firstStatus = 401 → (bearerOf st.accessToken).isSome = true →
      refreshCount (sendRequest st sv).2.2 = 1 ∧
      ∀ nt, sv.refreshOutcome = some nt →
        (sendRequest st sv).1 = .http sv.retryStatus ∧
        attemptBearers (sendRequest st sv).2.2 =
          [bearerOf st.accessToken, some nt] ∧
        (sendRequest st sv).2.1.accessToken = some (.str nt)) ∧
    ((bearerOf st.accessToken).isSome = false →
      refreshCount (sendRequest st sv).2.2 = 0 ∧
      (sendRequest st sv).1 = .http sv.firstStatus) ∧
    (sv.firstStatus ≠ 401 →
      refreshCount (sendRequest st sv).2.2 = 0 ∧
      (sendRequest st sv).1 = .http sv.firstStatus) := by
  refine ⟨?_, ?_, ?_⟩
  · intro h401 hcred
    obtain ⟨b, hb⟩ := Option.isSome_iff_exists.mp hcred
    cases hro : sv.refreshOutcome with
    | some nt =>
      rw [sendRequest_cred401_refreshOk st sv b nt h401 hb hro]
      refine ⟨rfl, ?_⟩
      intro nt2 h2
      cases h2
      exact ⟨rfl, by simp [attemptBearers, hb], rfl⟩
    | none =>
      rw [sendRequest_cred401_refreshFail st sv b h401 hb hro]
      refine ⟨rfl, ?_⟩
      intro nt2 h2
      cases h2
  · intro hnb
    have hb : bearerOf st.accessToken = none := by
      cases hbb : bearerOf st.accessToken
      · rfl
      · rw [hbb] at hnb; cases hnb
    rw [sendRequest_nocred st sv hb]
    exact ⟨rfl, rfl⟩
  · intro h
    rw [sendRequest_non401 st sv h]
    exact ⟨rfl, rfl⟩

/-- Claim C1 witness: with a stored access token T1, a first answer of 401, a
refresh producing T2 and a retry answer of 401, the Transport performs one
refresh call, attempts bearing T1 then T2, and returns the 401 of the retry
as final with no further refresh. -/
theorem transport_single_refresh_retry_witness :
    refreshCount (sendRequest tSt tSv).2.2 = 1 ∧
    (sendRequest tSt tSv).1 = SendResult.http 401 ∧
    attemptBearers (sendRequest tSt tSv).2.2 = [some "T1", some "T2"] := by
  have h := (transport_single_refresh_retry tSt tSv).1 rfl rfl
  obtain ⟨h1, h2⟩ := h
  obtain ⟨h3, h4, _⟩ := h2 "T2" rfl
  exact ⟨h1, h3, h4⟩

/-- Claim C2: a login response carrying the success flag, a token and a user
record persists all four credential entries (access token, refresh token,
account kind, serialized user record) and returns the assembled session whose
access token and user equal the response token and user. -/
theorem login_success_persists_and_returns (c : LoginRequest)
    (resp : BackendAuthResponse) (st : Store) (t : String) (u : User)
    (hok : resp.ok = true) (ht : resp.token = some t) (hne : t.isEmpty = false)
    (hu : resp.user = some u) :
    authApi.login c (.ok resp) st =
      (.ok { token := t, refreshToken := jsOrElse resp.refreshToken t,
             user := u, userType := c.userType },
       { accessToken := some (.str t),
         refreshToken := some (.str (jsOrElse resp.refreshToken t)),
         userType := some (.str c.userType.asString),
         userData := some (.userJson u) }) :=
  login_ok c resp st t u hok ht hne hu

/-- Claim C2 witness: the scenario login against the response with ok, token
T1, refresh token R1 and user id 1 yields the session with access token T1
and persists the user record with id 1. -/
theorem login_success_persists_and_returns_witness :
    authApi.login scenarioReq (.ok scenarioResp) stEmpty =
      (.ok { token := "T1", refreshToken := "R1", user := uAB,
             userType := .jobseeker },
       { accessToken := some (.str "T1"), refreshToken := some (.str "R1"),
         userType := some (.str "jobseeker"),
         userData := some (.userJson uAB) }) :=
  (login_success_persists_and_returns scenarioReq scenarioResp stEmpty "T1" uAB
    rfl rfl (by decide) rfl).trans (by rfl)

/-- Claim C3: logout ignores the outcome of the remote notification, returns
normally, and leaves all four Credential Store entries absent. -/
theorem logout_clears_all_entries (remoteOk : Bool) (st : Store) :
    authApi.logout remoteOk st =
      { accessToken := none, refreshToken := none,
        userType := none, userData := none } :=
  rfl

/-- Claim C4 counterexample: a store in which exactly three of the four
entries are present — only the refresh token is absent — is reported
authenticated by checkAuth, so the claim as stated (unauthenticated whenever
any one of the four entries is absent) is false at this input. -/
theorem checkAuth_three_of_four_cex :
    c4Store.accessToken.isSome = true ∧ c4Store.userType.isSome = true ∧
    c4Store.userData.isSome = true ∧ c4Store.refreshToken = none ∧
    (authApi.checkAuth c4Store).isAuthenticated = true := by
  decide

/-- Claim C4 amended: checkAuth returns the unauthenticated result, without
throwing, whenever any of the three entries it reads (access token, user-type
tag, user data) is absent or empty, and likewise whenever the stored user
data fails to parse; the refresh token entry is never read, so its absence
alone does not make the result unauthenticated. -/
theorem checkAuth_partial_or_corrupt (st : Store)
    (h : truthy st.accessToken = false ∨ truthy st.userType = false ∨
         truthy st.userData = false ∨ ∃ s, st.userData = some (.str s)) :
    authApi.checkAuth st =
      { isAuthenticated := false, userType := none, user := none } := by
  unfold authApi.checkAuth
  rcases h with h | h | h | ⟨s, h⟩
  · simp [h]
  · simp [h]
  · simp [h]
  · simp only [h]
    split
    · rfl
    · rfl

/-- Claim C4 witness: a store holding access token, refresh token and
user-type tag but no user data entry is reported unauthenticated. -/
theorem checkAuth_partial_or_corrupt_witness :
    authApi.checkAuth
      { accessToken := some (.str "T1"), refreshToken := some (.str "R1"),
        userType := some (.str "jobseeker"), userData := none } =
      { isAuthenticated := false, userType := none, user := none } :=
  checkAuth_partial_or_corrupt _ (Or.inr (Or.inr (Or.inl rfl)))

theorem userType_asString_isEmpty (ut : UserType) :
    ut.asString.isEmpty = false := by
  cases ut <;> rfl

/-- Claim C5: after a successful login the Credential Store holds a
non-absent value for all four entries, and checkAuth on that store returns
an authenticated result carrying the same user-type tag and the same user
record that the login persisted. -/
theorem login_then_restore_roundtrip (c : LoginRequest)
    (resp : BackendAuthResponse) (st : Store) (t : String) (u : User)
    (hok : resp.ok = true) (ht : resp.token = some t) (hne : t.isEmpty = false)
    (hu : resp.user = some u) :
    ((authApi.login c (.ok resp) st).2.accessToken.isSome = true ∧
     (authApi.login c (.ok resp) st).2.refreshToken.isSome = true ∧
     (authApi.login c (.ok resp) st).2.userType.isSome = true ∧
     (authApi.login c (.ok resp) st).2.userData.isSome = true) ∧
    authApi.checkAuth (authApi.login c (.ok resp) st).2 =
      { isAuthenticated := true, userType := some (.str c.userType.asString),
        user := some u } := by
  rw [login_ok c resp st t u hok ht hne hu]
  refine ⟨⟨rfl, rfl, rfl, rfl⟩, ?_⟩
  simp [authApi.checkAuth, truthy, hne, userType_asString_isEmpty]

/-- Claim C5 witness: the scenario login against the empty store leaves a
store that checkAuth reports authenticated with the jobseeker tag and the
persisted user record. -/
theorem login_then_restore_roundtrip_witness :
    authApi.checkAuth (authApi.login scenarioReq (.ok scenarioResp) stEmpty).2 =
      { isAuthenticated := true, userType := some (.str "jobseeker"),
        user := some uAB } := by
  have h := (login_then_restore_roundtrip scenarioReq scenarioResp stEmpty
    "T1" uAB rfl rfl (by decide) rfl).2
  exact h

/-- Claim C6: a login response missing the success flag, the token or the
user record makes login fail with the server-supplied error message when a
non-empty one is present, and with the generic message otherwise. -/
theorem login_failure_error_message (c : LoginRequest)
    (resp : BackendAuthResponse) (st : Store)
    (h : resp.ok = false ∨ resp.token = none ∨ resp.token = some "" ∨
         resp.user = none) :
    authApi.login c (.ok resp) st =
      (.error (jsOrElse resp.error "Login failed"), st) ∧
    (∀ m, resp.error = some m → m.isEmpty = false →
      jsOrElse resp.error "Login failed" = m) ∧
    (resp.error = none → jsOrElse resp.error "Login failed" = "Login failed") := by
  refine ⟨login_fail c resp st h, ?_, ?_⟩
  · intro m hm hne
    rw [hm]
    exact jsOrElse_some m _ hne
  · intro hm
    rw [hm]
    exact jsOrElse_none _

/-- Claim C6 witness: a rejected login carrying the message of the server
fails with exactly that message and no store change. -/
theorem login_failure_error_message_witness :
    authApi.login scenarioReq (.ok respBadPw) stEmpty =
      (.error "Invalid email or password", stEmpty) := by
  have h := login_failure_error_message scenarioReq respBadPw stEmpty (Or.inl rfl)
  rw [h.1, h.2.1 "Invalid email or password" rfl (by decide)]

/-- Claim C7: on a successful login or registration, when the server omits a
distinct refresh token (absent or empty field) the persisted refresh-token
entry and the refreshToken field of the returned session both equal the
access token; when the server supplies a distinct non-empty refresh token,
that value is persisted and returned instead. -/
theorem refresh_token_defaulting (c : LoginRequest)
    (resp : BackendAuthResponse) (st : Store) (t : String) (u : User)
    (hok : resp.ok = true) (ht : resp.token = some t) (hne : t.isEmpty = false)
    (hu : resp.user = some u) :
    ((resp.refreshToken = none ∨ resp.refreshToken = some "") →
      (authApi.login c (.ok resp) st).2.refreshToken = some (.str t) ∧
      (authApi.login c (.ok resp) st).1 =
        .ok { token := t, refreshToken := t, user := u, userType := c.userType } ∧
      (authApi.registerJobSeeker (.ok resp) st).2.refreshToken = some (.str t) ∧
      (authApi.registerJobSeeker (.ok resp) st).1 =
        .ok { token := t, refreshToken := t, user := u, userType := .jobseeker } ∧
      (authApi.registerClient (.ok resp) st).2.refreshToken = some (.str t) ∧
      (authApi.registerClient (.ok resp) st).1 =
        .ok { token := t, refreshToken := t, user := u, userType := .client }) ∧
    (∀ r, resp.refreshToken = some r → r.isEmpty = false →
      (authApi.login c (.ok resp) st).2.refreshToken = some (.str r) ∧
      (authApi.login c (.ok resp) st).1 =
        .ok { token := t, refreshToken := r, user := u, userType := c.userType } ∧
      (authApi.registerJobSeeker (.ok resp) st).2.refreshToken = some (.str r) ∧
      (authApi.registerJobSeeker (.ok resp) st).1 =
        .ok { token := t, refreshToken := r, user := u, userType := .jobseeker } ∧
      (authApi.registerClient (.ok resp) st).2.refreshToken = some (.str r) ∧
      (authApi.registerClient (.ok resp) st).1 =
        .ok { token := t, refreshToken := r, user := u, userType := .client }) := by
  have hl := login_ok c resp st t u hok ht hne hu
  have hj := registerJobSeeker_ok resp st t u hok ht hne hu
  have hc := registerClient_ok resp st t u hok ht hne hu
  constructor
  · intro hr
    have he : jsOrElse resp.refreshToken t = t := by
      rcases hr with hr | hr <;> rw [hr] <;> rfl
    rw [hl, hj, hc, he]
    exact ⟨rfl, rfl, rfl, rfl, rfl, rfl⟩
  · intro r hr hrne
    have he : jsOrElse resp.refreshToken t = r := by
      rw [hr]
      exact jsOrElse_some r t hrne
    rw [hl, hj, hc, he]
    exact ⟨rfl, rfl, rfl, rfl, rfl, rfl⟩

/-- Claim C7 witness: a successful login whose response omits the refresh
token persists the access token T1 as refresh token and returns it in the
session refreshToken field. -/
theorem refresh_token_defaulting_witness :
    (authApi.login scenarioReq (.ok respNoRefresh) stEmpty).2.refreshToken =
      some (.str "T1") ∧
    (authApi.login scenarioReq (.ok respNoRefresh) stEmpty).1 =
      .ok { token := "T1", refreshToken := "T1", user := uAB,
            userType := .jobseeker } := by
  have h := (refresh_token_defaulting scenarioReq respNoRefresh stEmpty
    "T1" uAB rfl rfl (by decide) rfl).1 (Or.inl rfl)
  exact ⟨h.1, h.2.1⟩

/-- Claim C8: a profile update (job-seeker or client) whose response carries
the success flag and a user record overwrites the persisted user record with
the returned user and returns it; a response lacking either leaves the store
unchanged and fails with the server message when a non-empty one is present,
else the generic message. -/
theorem updateProfile_overwrite_or_reject (resp : BackendAuthResponse)
    (st : Store) :
    (∀ u, resp.ok = true → resp.user = some u →
      authApi.updateJobSeekerProfile resp st =
        (.ok u, { st with userData := some (.userJson u) }) ∧
      authApi.updateClientProfile resp st =
        (.ok u, { st with userData := some (.userJson u) })) ∧
    (resp.ok = false ∨ resp.user = none →
      authApi.updateJobSeekerProfile resp st =
        (.error (jsOrElse resp.error "Failed to update profile"), st) ∧
      authApi.updateClientProfile resp st =
        (.error (jsOrElse resp.error "Failed to update profile"), st)) ∧
    (∀ m, resp.error = some m → m.isEmpty = false →
      jsOrElse resp.error "Failed to update profile" = m) := by
  refine ⟨?_, ?_, ?_⟩
  · intro u hok hu
    constructor <;>
      simp [authApi.updateJobSeekerProfile, authApi.updateClientProfile, hok, hu]
  · intro h
    constructor
    · rcases h with h | h
      · rcases hu : resp.user with _ | u <;>
          simp [authApi.updateJobSeekerProfile, h, hu]
      · rcases hok : resp.ok with _ | _ <;>
          simp [authApi.updateJobSeekerProfile, h, hok]
    · rcases h with h | h
      · rcases hu : resp.user with _ | u <;>
          simp [authApi.updateClientProfile, h, hu]
      · rcases hok : resp.ok with _ | _ <;>
          simp [authApi.updateClientProfile, h, hok]
  · intro m hm hne
    rw [hm]
    exact jsOrElse_some m _ hne

/-- Claim C8 witness: a successful update overwrites the stored user record
with the fresher user; the stale-data rejection leaves the store unchanged
and fails with the message stale data. -/
theorem updateProfile_overwrite_or_reject_witness :
    authApi.updateJobSeekerProfile respOkU2 tSt =
      (.ok u2, { tSt with userData := some (.userJson u2) }) ∧
    authApi.updateJobSeekerProfile respStale tSt =
      (.error "stale data", tSt) := by
  have h1 := (updateProfile_overwrite_or_reject respOkU2 tSt).1 u2 rfl rfl
  have h2 := (updateProfile_overwrite_or_reject respStale tSt).2.1 (Or.inl rfl)
  have h3 := (updateProfile_overwrite_or_reject respStale tSt).2.2
    "stale data" rfl (by decide)
  refine ⟨h1.1, ?_⟩
  rw [h2.1, h3]

/-- Claim C9: getCurrentUser performs no store access, so for every response
the Credential Store passes through entirely unchanged. -/
theorem getCurrentUser_frame (ut : UserType) (resp : BackendAuthResponse)
    (st : Store) :
    (authApi.getCurrentUser ut resp st).2 = st := by
  unfold authApi.getCurrentUser
  rcases hok : resp.ok with _ | _ <;> rcases hu : resp.user with _ | u <;>
    simp [hok, hu]

/-- Claim C10: a login or registration call that fails — because the
transport rejected, or because the response lacks the success flag, the token
or the user record — performs no write: the Credential Store after the call
equals the store before it, for all three operations. -/
theorem auth_failure_preserves_store (c : LoginRequest)
    (net : Except String BackendAuthResponse) (st : Store)
    (h : (∃ e, net = .error e) ∨
         ∃ resp, net = .ok resp ∧ (resp.ok = false ∨ resp.token = none ∨
           resp.token = some "" ∨ resp.user = none)) :
    (authApi.login c net st).2 = st ∧
    (authApi.registerJobSeeker net st).2 = st ∧
    (authApi.registerClient net st).2 = st := by
  rcases h with ⟨e, he⟩ | ⟨resp, hr, hshape⟩
  · subst he
    exact ⟨rfl, rfl, rfl⟩
  · subst hr
    rw [login_fail c resp st hshape, registerJobSeeker_fail resp st hshape,
        registerClient_fail resp st hshape]
    exact ⟨rfl, rfl, rfl⟩

/-- Claim C10 witness: a transport rejection leaves a full session store
exactly as it was across login and both registrations. -/
theorem auth_failure_preserves_store_witness :
    (authApi.login scenarioReq (.error "Network Error") tSt).2 = tSt ∧
    (authApi.registerJobSeeker (.error "Network Error") tSt).2 = tSt ∧
    (authApi.registerClient (.error "Network Error") tSt).2 = tSt :=
  auth_failure_preserves_store scenarioReq (.error "Network Error") tSt
    (Or.inl ⟨"Network Error", rfl⟩)

end Vergo
